import Mathlib

/-!
# Magnum `IndexedMesh` (src/IndexedMesh.h)

A shallow embedding of the class `Magnum::IndexedMesh` and the properties of its
constructor and accessors.

Conventions of the embedding.

* `GLsizei` (a signed 32-bit integer) is an `Int`, `GLenum` (an unsigned 32-bit
  integer) is a `Nat`. The class does no arithmetic on either, the values are
  only stored and returned; `GLsizei.inRange` and `GLenum.inRange` characterise
  the values the C++ types hold.
* A member function is a function from the state of the object before the call
  to the returned value paired with the state of the object after the call.
* A constructor `T::T` is the function `T.ctor`.
* The collaborators `Mesh` and `Buffer` (Mesh.h, Buffer.h) and the body of
  `IndexedMesh::draw` (IndexedMesh.cpp) are not part of the translated header;
  what is needed of them is modelled from the specification and marked so.
-/

namespace Magnum

/-! ## Scalar types of the graphics API -/

/-- Signed size type of the graphics API (`typedef int GLsizei`). -/
abbrev GLsizei := Int

/-- Enumeration type of the graphics API (`typedef unsigned int GLenum`). -/
abbrev GLenum := Nat

/-- The values a 32-bit signed `GLsizei` holds. -/
def GLsizei.inRange (n : GLsizei) : Prop := -(2 : Int) ^ 31 ≤ n ∧ n < (2 : Int) ^ 31

instance (n : GLsizei) : Decidable (GLsizei.inRange n) := by
  unfold GLsizei.inRange; infer_instance

/-- The values a 32-bit unsigned `GLenum` holds. -/
def GLenum.inRange (t : GLenum) : Prop := t < 2 ^ 32

instance (t : GLenum) : Decidable (GLenum.inRange t) := by
  unfold GLenum.inRange; infer_instance

/-- Modelled from the spec: the 8-bit unsigned index encoding, an enumerator of
the graphics API headers (absent from src/); the number is the one those
headers assign to `GL_UNSIGNED_BYTE`. -/
def GL_UNSIGNED_BYTE : GLenum := 0x1401

/-- Modelled from the spec: the 16-bit unsigned index encoding, an enumerator of
the graphics API headers (absent from src/); the number is the one those
headers assign to `GL_UNSIGNED_SHORT`. -/
def GL_UNSIGNED_SHORT : GLenum := 0x1403

/-- Modelled from the spec: the 32-bit unsigned index encoding, an enumerator of
the graphics API headers (absent from src/); the number is the one those
headers assign to `GL_UNSIGNED_INT`. -/
def GL_UNSIGNED_INT : GLenum := 0x1405

/-- The three index encodings the constructor documents for `indexType`:
"Type of indices (GL_UNSIGNED_BYTE, GL_UNSIGNED_SHORT or GL_UNSIGNED_INT)". -/
def supportedIndexType (t : GLenum) : Prop :=
  t = GL_UNSIGNED_BYTE ∨ t = GL_UNSIGNED_SHORT ∨ t = GL_UNSIGNED_INT

instance (t : GLenum) : Decidable (supportedIndexType t) := by
  unfold supportedIndexType; infer_instance

/-! ## Collaborators: `Mesh` and `Buffer` -/

/-- Modelled from the spec: the primitive topology enumeration `Primitive` that
Mesh.h declares (absent from src/), "how vertices are grouped into drawable
shapes (e.g., triangles, lines)"; the tags are the primitive modes of the
graphics API. -/
inductive Primitive where
  | Points
  | Lines
  | LineStrip
  | LineLoop
  | Triangles
  | TriangleStrip
  | TriangleFan
  deriving DecidableEq, Repr

/-- Modelled from the spec: the usage role `Buffer::Target` that Buffer.h
declares (absent from src/). The header names `Buffer::ElementArrayBuffer`, the
index/element storage role; `ArrayBuffer` is the role of the source buffers of
vertex attributes. -/
inductive Buffer.Target where
  | ArrayBuffer
  | ElementArrayBuffer
  deriving DecidableEq, Repr

/-- Modelled from the spec: the class `Buffer` of Buffer.h (absent from src/),
"a GPU-resident memory region tagged with a usage role". `data` is the content
of the region, which the caller fills. -/
structure Buffer where
  target : Buffer.Target
  data : List Nat
  deriving DecidableEq, Repr

/-- Modelled from the spec: the constructor `Buffer(Target)` of Buffer.h
(absent from src/): a buffer tagged with the given role, nothing written into
it yet. -/
def Buffer.ctor (target : Buffer.Target) : Buffer :=
  { target := target, data := [] }

/-- Modelled from the spec: a vertex attribute binding of Mesh.h (absent from
src/), the "association between a buffer's memory layout and a shader's
per-vertex input". -/
structure AttributeBinding where
  buffer : Buffer
  location : Nat
  deriving DecidableEq, Repr

/-- Modelled from the spec: the base class `Mesh` of Mesh.h (absent from src/):
"primitive topology + vertex count + attribute bindings". -/
structure Mesh where
  _primitive : Primitive
  _vertexCount : GLsizei
  _attributes : List AttributeBinding
  deriving DecidableEq, Repr

/-- Modelled from the spec: the constructor `Mesh(Primitive, GLsizei)` of Mesh.h
(absent from src/): the base mesh state of the given topology and vertex count;
the caller adds the vertex buffers afterwards, so no attribute is bound yet. -/
def Mesh.ctor (primitive : Primitive) (vertexCount : GLsizei) : Mesh :=
  { _primitive := primitive, _vertexCount := vertexCount, _attributes := [] }

/-! ## `class IndexedMesh: public Mesh` -/

/-- The data members of `IndexedMesh` (lines 66-69 of the header) on top of the
base class `Mesh`. -/
structure IndexedMesh extends Mesh where
  _indexBuffer : Buffer
  _indexCount : GLsizei
  _indexType : GLenum
  deriving DecidableEq, Repr

/-- The constructor (line 42):
`IndexedMesh(Primitive primitive, GLsizei vertexCount, GLsizei indexCount,
GLenum indexType = GL_UNSIGNED_SHORT): Mesh(primitive, vertexCount),
_indexBuffer(Buffer::ElementArrayBuffer), _indexCount(indexCount),
_indexType(indexType) {}`. The default argument of C++ is the default argument
of the definition. -/
def IndexedMesh.ctor (primitive : Primitive) (vertexCount : GLsizei)
    (indexCount : GLsizei) (indexType : GLenum := GL_UNSIGNED_SHORT) : IndexedMesh :=
  { toMesh := Mesh.ctor primitive vertexCount,
    _indexBuffer := Buffer.ctor Buffer.Target.ElementArrayBuffer,
    _indexCount := indexCount,
    _indexType := indexType }

/-- The accessor of line 45: `inline GLsizei indexCount() const { return _indexCount; }`;
the returned value and the object after the call. -/
def IndexedMesh.indexCount (self : IndexedMesh) : GLsizei × IndexedMesh :=
  (self._indexCount, self)

/-- The accessor of line 48: `inline GLenum indexType() const { return _indexType; }`;
the returned value and the object after the call. -/
def IndexedMesh.indexType (self : IndexedMesh) : GLenum × IndexedMesh :=
  (self._indexType, self)

/-! ## Pointers to the index buffer -/

/-- Address of an object in memory. -/
abbrev Addr := Nat

/-- A value of type `Buffer*`. The one buffer whose address the header takes is
the member `_indexBuffer` of an `IndexedMesh`: `indexBufferOf a` is the address
of the member `_indexBuffer` of the object at address `a`. -/
inductive BufferPtr where
  | indexBufferOf (owner : Addr)
  deriving DecidableEq, Repr

/-- The `IndexedMesh` objects alive in memory, by address. -/
abbrev Memory := Addr → Option IndexedMesh

/-- The buffer a pointer designates in a memory: the member `_indexBuffer` of
the object at the owner address, none when no object lives there. -/
def BufferPtr.deref (mem : Memory) : BufferPtr → Option Buffer
  | BufferPtr.indexBufferOf owner => (mem owner).map fun m => m._indexBuffer

/-- The accessor of line 56: `inline Buffer* indexBuffer() { return &_indexBuffer; }`,
called on the object `self` that lives at address `addr` (the C++ `this`): the
returned pointer and the object after the call. -/
def IndexedMesh.indexBuffer (self : IndexedMesh) (addr : Addr) : BufferPtr × IndexedMesh :=
  (BufferPtr.indexBufferOf addr, self)

/-- The memory that holds the one object `m`, at address `a`. -/
def Memory.single (a : Addr) (m : IndexedMesh) : Memory :=
  fun b => if b = a then some m else none

/-! ## `draw()` -/

/-- Modelled from the spec: the calls `IndexedMesh::draw()` makes on the
rendering device (the body of `draw`, IndexedMesh.cpp, is absent from src/):
binding a vertex attribute to its source buffer, binding the index buffer, and
the indexed draw call with its topology, index count and index type. -/
inductive GLCall where
  | bindAttribute (binding : AttributeBinding)
  | bindIndexBuffer (buffer : Buffer)
  | drawElements (mode : Primitive) (count : GLsizei) (indexType : GLenum)
  deriving DecidableEq, Repr

/-- Whether a call is an indexed draw call. -/
def GLCall.isDrawElements : GLCall → Bool
  | GLCall.drawElements _ _ _ => true
  | _ => false

/-- Modelled from the spec: the state of the external rendering device, as the
calls it has received, oldest first. -/
abbrev Device := List GLCall

/-- Modelled from the spec: the body of `virtual void draw()` (declared at line
64, defined in IndexedMesh.cpp, absent from src/): "bind vertex attribute
bindings to their source buffers, bind the index buffer, then issue an indexed
draw call using the stored primitive topology, index count, and index type";
"No return value; side effect is purely on the external rendering device". The
result is the device after the call and the object after the call. -/
def IndexedMesh.draw (self : IndexedMesh) (device : Device) : Device × IndexedMesh :=
  (device ++ self._attributes.map GLCall.bindAttribute
      ++ [GLCall.bindIndexBuffer self._indexBuffer,
          GLCall.drawElements self._primitive self._indexCount self._indexType],
   self)

/-! ## Properties of the constructor and the accessors -/

/-- C1: for every primitive, vertex count, index count `n` and index type,
`indexCount()` on the freshly constructed `IndexedMesh` returns exactly `n`. -/
theorem indexCount_ctor (p : Primitive) (v n : GLsizei) (t : GLenum) :
    (IndexedMesh.ctor p v n t).indexCount.1 = n := rfl

/-- C1, the documented example: `IndexedMesh(Triangles, 4, 6)` has
`indexCount() == 6`. -/
theorem indexCount_ctor_example :
    (IndexedMesh.ctor Primitive.Triangles 4 6).indexCount.1 = 6 :=
  indexCount_ctor Primitive.Triangles 4 6 GL_UNSIGNED_SHORT

/-- C2: for every primitive, vertex count, index count and index type `t`,
`indexType()` on the freshly constructed `IndexedMesh` returns exactly `t`. -/
theorem indexType_ctor (p : Primitive) (v n : GLsizei) (t : GLenum) :
    (IndexedMesh.ctor p v n t).indexType.1 = t := rfl

/-- C3: constructing with the index type omitted yields an object whose
`indexType()` is `GL_UNSIGNED_SHORT`, and the object is the one the
four-argument construction with `GL_UNSIGNED_SHORT` yields. -/
theorem indexType_ctor_default (p : Primitive) (v n : GLsizei) :
    (IndexedMesh.ctor p v n).indexType.1 = GL_UNSIGNED_SHORT
    ∧ IndexedMesh.ctor p v n = IndexedMesh.ctor p v n GL_UNSIGNED_SHORT :=
  ⟨rfl, rfl⟩

/-- C4, as stated, fails: the constructor stores the index count unchecked, so
`IndexedMesh(Triangles, 4, -1)`, whose index count is a value of `GLsizei`,
has a negative `indexCount()`. -/
theorem indexCount_ctor_negative :
    GLsizei.inRange 4 ∧ GLsizei.inRange (-1)
    ∧ (IndexedMesh.ctor Primitive.Triangles 4 (-1)).indexCount.1 = -1
    ∧ (IndexedMesh.ctor Primitive.Triangles 4 (-1)).indexCount.1 < 0 := by
  refine ⟨by decide, by decide, rfl, ?_⟩
  show (-1 : Int) < 0
  decide

/-- C4, amended: `indexCount() >= 0` holds on a constructed `IndexedMesh`
exactly when the index count passed to the constructor is `>= 0`. -/
theorem indexCount_ctor_nonneg_iff (p : Primitive) (v n : GLsizei) (t : GLenum) :
    0 ≤ (IndexedMesh.ctor p v n t).indexCount.1 ↔ 0 ≤ n :=
  Iff.rfl

/-- C5, as stated, fails: the constructor stores the index type unchecked, so
`IndexedMesh(Triangles, 4, 6, 0)`, whose index type is a value of `GLenum`,
has an `indexType()` that is none of the three supported encodings. -/
theorem indexType_ctor_unsupported :
    GLenum.inRange 0
    ∧ (IndexedMesh.ctor Primitive.Triangles 4 6 0).indexType.1 = 0
    ∧ ¬ supportedIndexType (IndexedMesh.ctor Primitive.Triangles 4 6 0).indexType.1 := by
  refine ⟨by decide, rfl, ?_⟩
  show ¬ supportedIndexType 0
  decide

/-- C5, amended: `indexType()` of a constructed `IndexedMesh` is one of the
three supported encodings exactly when the index type passed to the constructor
is one of them, and it is one of them when the index type is omitted. -/
theorem indexType_ctor_supported_iff (p : Primitive) (v n : GLsizei) (t : GLenum) :
    (supportedIndexType (IndexedMesh.ctor p v n t).indexType.1 ↔ supportedIndexType t)
    ∧ supportedIndexType (IndexedMesh.ctor p v n).indexType.1 :=
  ⟨Iff.rfl, Or.inr (Or.inl rfl)⟩

/-- C6: on the instance `m` living at address `a`, two successive calls of
`indexBuffer()` return the same handle, the handle designates the member
`_indexBuffer` of that instance, and the call changes neither the object nor
what `indexCount()` and `indexType()` return nor the buffer. -/
theorem indexBuffer_stable (mem : Memory) (a : Addr) (m : IndexedMesh)
    (h : mem a = some m) :
    ((m.indexBuffer a).2.indexBuffer a).1 = (m.indexBuffer a).1
    ∧ (m.indexBuffer a).1.deref mem = some m._indexBuffer
    ∧ ((m.indexBuffer a).2.indexBuffer a).1.deref mem = some m._indexBuffer
    ∧ (m.indexBuffer a).2 = m
    ∧ (m.indexBuffer a).2.indexCount.1 = m.indexCount.1
    ∧ (m.indexBuffer a).2.indexType.1 = m.indexType.1
    ∧ (m.indexBuffer a).2._indexBuffer = m._indexBuffer := by
  have hd : (BufferPtr.indexBufferOf a).deref mem = some m._indexBuffer := by
    simp [BufferPtr.deref, h]
  exact ⟨rfl, hd, hd, rfl, rfl, rfl, rfl⟩

/-- C6 at a concrete input: the mesh `IndexedMesh(Triangles, 4, 6)` living at
address 16 of a memory that holds nothing else. -/
theorem indexBuffer_stable_example :
    Memory.single 16 (IndexedMesh.ctor Primitive.Triangles 4 6) 16
        = some (IndexedMesh.ctor Primitive.Triangles 4 6)
    ∧ (((IndexedMesh.ctor Primitive.Triangles 4 6).indexBuffer 16).2.indexBuffer 16).1
        = ((IndexedMesh.ctor Primitive.Triangles 4 6).indexBuffer 16).1
    ∧ ((IndexedMesh.ctor Primitive.Triangles 4 6).indexBuffer 16).1.deref
          (Memory.single 16 (IndexedMesh.ctor Primitive.Triangles 4 6))
        = some (IndexedMesh.ctor Primitive.Triangles 4 6)._indexBuffer
    ∧ (((IndexedMesh.ctor Primitive.Triangles 4 6).indexBuffer 16).2.indexBuffer 16).1.deref
          (Memory.single 16 (IndexedMesh.ctor Primitive.Triangles 4 6))
        = some (IndexedMesh.ctor Primitive.Triangles 4 6)._indexBuffer
    ∧ ((IndexedMesh.ctor Primitive.Triangles 4 6).indexBuffer 16).2
        = IndexedMesh.ctor Primitive.Triangles 4 6
    ∧ ((IndexedMesh.ctor Primitive.Triangles 4 6).indexBuffer 16).2.indexCount.1
        = (IndexedMesh.ctor Primitive.Triangles 4 6).indexCount.1
    ∧ ((IndexedMesh.ctor Primitive.Triangles 4 6).indexBuffer 16).2.indexType.1
        = (IndexedMesh.ctor Primitive.Triangles 4 6).indexType.1
    ∧ ((IndexedMesh.ctor Primitive.Triangles 4 6).indexBuffer 16).2._indexBuffer
        = (IndexedMesh.ctor Primitive.Triangles 4 6)._indexBuffer :=
  ⟨rfl,
   indexBuffer_stable (Memory.single 16 (IndexedMesh.ctor Primitive.Triangles 4 6))
     16 (IndexedMesh.ctor Primitive.Triangles 4 6) rfl⟩

/-- C7: for all constructor arguments the index buffer of the constructed
`IndexedMesh`, the one the handle of `indexBuffer()` designates, is the buffer
created with the role `Buffer::ElementArrayBuffer`, whatever the primitive,
counts and index type, and the base `Mesh` is the one constructed from the given
primitive and vertex count. -/
theorem ctor_indexBuffer_and_base (p : Primitive) (v n : GLsizei) (t : GLenum) :
    (IndexedMesh.ctor p v n t)._indexBuffer = Buffer.ctor Buffer.Target.ElementArrayBuffer
    ∧ (IndexedMesh.ctor p v n t)._indexBuffer.target = Buffer.Target.ElementArrayBuffer
    ∧ (∀ a : Addr, ((IndexedMesh.ctor p v n t).indexBuffer a).1.deref
          (Memory.single a (IndexedMesh.ctor p v n t))
        = some (Buffer.ctor Buffer.Target.ElementArrayBuffer))
    ∧ (IndexedMesh.ctor p v n t).toMesh = Mesh.ctor p v
    ∧ (IndexedMesh.ctor p v n t)._primitive = p
    ∧ (IndexedMesh.ctor p v n t)._vertexCount = v := by
  refine ⟨rfl, rfl, ?_, rfl, rfl, rfl⟩
  intro a
  simp [IndexedMesh.indexBuffer, BufferPtr.deref, Memory.single, IndexedMesh.ctor]

/-- C8: `indexCount()` and `indexType()` always return a value, the stored
field, and leave the base mesh state, the index buffer, the index count and the
index type of the object as they were, so a repeated call, after either
accessor, returns the same result. -/
theorem accessors_pure (m : IndexedMesh) :
    (∃ r : GLsizei, m.indexCount = (r, m))
    ∧ (∃ r : GLenum, m.indexType = (r, m))
    ∧ m.indexCount.1 = m._indexCount
    ∧ m.indexType.1 = m._indexType
    ∧ (m.indexCount.2.toMesh = m.toMesh ∧ m.indexCount.2._indexBuffer = m._indexBuffer
        ∧ m.indexCount.2._indexCount = m._indexCount ∧ m.indexCount.2._indexType = m._indexType)
    ∧ (m.indexType.2.toMesh = m.toMesh ∧ m.indexType.2._indexBuffer = m._indexBuffer
        ∧ m.indexType.2._indexCount = m._indexCount ∧ m.indexType.2._indexType = m._indexType)
    ∧ m.indexCount.2.indexCount.1 = m.indexCount.1
    ∧ m.indexType.2.indexCount.1 = m.indexCount.1
    ∧ m.indexType.2.indexType.1 = m.indexType.1
    ∧ m.indexCount.2.indexType.1 = m.indexType.1 :=
  ⟨⟨m._indexCount, rfl⟩, ⟨m._indexType, rfl⟩, rfl, rfl, ⟨rfl, rfl, rfl, rfl⟩,
   ⟨rfl, rfl, rfl, rfl⟩, rfl, rfl, rfl, rfl⟩

/-- C9: `draw()` adds to the calls the device has received, in this order, the
binding of each vertex attribute of the mesh, the binding of the index buffer
and one indexed draw call whose parameters are the stored primitive topology,
`indexCount()` and `indexType()`; it adds exactly one indexed draw call, the
last call, and leaves the object as it was. -/
theorem draw_calls (m : IndexedMesh) (device : Device) :
    (m.draw device).1
        = device ++ m._attributes.map GLCall.bindAttribute
          ++ [GLCall.bindIndexBuffer m._indexBuffer,
              GLCall.drawElements m._primitive m.indexCount.1 m.indexType.1]
    ∧ ((m.draw device).1.filter GLCall.isDrawElements).length
        = (device.filter GLCall.isDrawElements).length + 1
    ∧ (m.draw device).1.getLast?
        = some (GLCall.drawElements m._primitive m.indexCount.1 m.indexType.1)
    ∧ (m.draw device).2 = m := by
  refine ⟨rfl, ?_, ?_, rfl⟩
  · have hb : (m._attributes.map GLCall.bindAttribute).filter GLCall.isDrawElements = [] := by
      rw [List.filter_eq_nil_iff]
      intro c hc
      obtain ⟨b, _, rfl⟩ := List.mem_map.mp hc
      simp [GLCall.isDrawElements]
    simp [IndexedMesh.draw, List.filter_append, hb, GLCall.isDrawElements]
  · simp [IndexedMesh.draw, IndexedMesh.indexCount, IndexedMesh.indexType]

/-- C9, the documented example: the mesh built with triangles, 4 vertices and 6
indices, drawn on a device that has received no call, issues the binding of the
index buffer and one indexed draw call for 6 indices of triangles. -/
theorem draw_calls_example :
    ((IndexedMesh.ctor Primitive.Triangles 4 6).draw []).1
      = [GLCall.bindIndexBuffer (Buffer.ctor Buffer.Target.ElementArrayBuffer),
         GLCall.drawElements Primitive.Triangles 6 GL_UNSIGNED_SHORT] :=
  (draw_calls (IndexedMesh.ctor Primitive.Triangles 4 6) []).1

end Magnum
